import Mathlib

/-!
MiniReader operator: tensor-descriptor inference and SBP signatures

A shallow embedding of `mini_reader_op.cpp` (the `MiniReader` user op registered with
`REGISTER_CPU_ONLY_USER_OP`) and theorems about its two callbacks:

* `oneflow.TensorDescInferFn`, the lambda given to `SetTensorDescInferFn`;
* `oneflow.GetSbpFn`, the lambda given to `SetGetSbpFn`.

Machine integers are mathematical integers with explicit ranges: `int32_t` values satisfy
`isInt32`, `int64_t` values satisfy `isInt64`, and the narrowing store of a 64-bit value
into a 32-bit variable is `wrapInt32`. C++ `%` and `/` on signed integers truncate
toward zero, which is `Int.tmod` and `Int.tdiv`.
-/

namespace oneflow

/-! ## Machine integers -/

/-- Range of a C++ `int32_t`. -/
def isInt32 (x : Int) : Prop := -2147483648 ≤ x ∧ x ≤ 2147483647

/-- Range of a C++ `int64_t`. -/
def isInt64 (x : Int) : Prop := -9223372036854775808 ≤ x ∧ x ≤ 9223372036854775807

instance (x : Int) : Decidable (isInt32 x) := by
  unfold isInt32; infer_instance

instance (x : Int) : Decidable (isInt64 x) := by
  unfold isInt64; infer_instance

/-- Narrowing conversion of an integer to `int32_t` (two's complement wrap-around), as
performed when the 64-bit quotient of `local_batch_size /= parallel_num` is stored back
into the 32-bit `local_batch_size`. -/
def wrapInt32 (x : Int) : Int := (x + 2147483648) % 4294967296 - 2147483648

/-! ## Data model -/

/-- Modelled from the spec: the `DataType` enumeration is declared in the framework, not in
this file; the spec only says a tensor descriptor carries an `element_type: enum`. The
operator writes `kDouble`. -/
inductive DataType where
  | kInvalidDataType
  | kChar
  | kFloat
  | kDouble
  | kInt8
  | kInt32
  | kInt64
  deriving DecidableEq, Repr

/-- Modelled from the spec: `SbpParallel` is declared in the framework, not in this file;
the spec's `PartitionSpec` is the tagged variant Split(axis), Broadcast, PartialReduce. -/
inductive SbpParallel where
  | split_parallel (axis : Int)
  | broadcast_parallel
  | partial_sum_parallel
  deriving DecidableEq, Repr

/-- The test `sbp.has_split_parallel()`: true exactly for the Split variant, whatever its axis. -/
def SbpParallel.has_split_parallel : SbpParallel → Bool
  | .split_parallel _ => true
  | .broadcast_parallel => false
  | .partial_sum_parallel => false

/-- Tensor descriptor written through `mut_shape()` and `mut_data_type()`: the dimensions
(64-bit signed in the framework's `Shape`) and the element type. -/
structure TensorDesc where
  shape : List Int
  data_type : DataType
  deriving DecidableEq, Repr

/-- Values of the nine attributes declared by the `.Attr(...)` calls of the registration,
in declaration order. -/
structure MiniReaderAttrs where
  data_dir : String
  data_part_num : Int
  part_name_prefix : String
  part_name_suffix_length : Int
  batch_size : Int
  random_shuffle : Bool
  shuffle_after_epoch : Bool
  seed : Int
  shuffle_buffer_size : Int
  deriving DecidableEq, Repr

/-- What the inference lambda reads from its `user_op::InferContext*`: the attribute values,
the SBP assigned to each (argument name, index) slot, and `parallel_ctx().parallel_num()`. -/
structure InferContext where
  attrs : MiniReaderAttrs
  SbpParallel4ArgNameAndIndex : String → Int → SbpParallel
  parallel_num : Int

/-- Error carried by a failed `Maybe<void>`; the only one this operator can produce is a
failed equality check, recorded with the two compared values. -/
inductive Error where
  | CheckFailedError (lhs rhs : Int)
  deriving DecidableEq, Repr

/-- Modelled from the spec: the `CHECK_EQ_OR_RETURN` macro is declared in the framework, not
in this file. It returns from the enclosing function with an error when its two arguments
differ and continues otherwise; the spec names the failure of the divisibility requirement
`UnevenSplitError`. -/
def CHECK_EQ_OR_RETURN (lhs rhs : Int) : Except Error Unit :=
  if lhs = rhs then .ok () else .error (.CheckFailedError lhs rhs)

/-! ## Tensor-descriptor inference -/

/-- The lambda passed to `SetTensorDescInferFn`. The result is the descriptor of output
`("out", 0)` after the two assignments through `out_tensor`, or the error of the failed
check. -/
def TensorDescInferFn (ctx : InferContext) : Except Error TensorDesc := do
  let mut local_batch_size : Int := ctx.attrs.batch_size
  let sbp : SbpParallel := ctx.SbpParallel4ArgNameAndIndex "out" 0
  let parallel_num : Int := ctx.parallel_num
  if sbp.has_split_parallel && decide (parallel_num > 1) then
    CHECK_EQ_OR_RETURN (Int.tmod local_batch_size parallel_num) 0
    local_batch_size := wrapInt32 (Int.tdiv local_batch_size parallel_num)
  return { shape := [local_batch_size, 2], data_type := DataType.kDouble }

/-! ## SBP signatures -/

/-- An argument slot: blob name and index, as in `ctx->outputs()`. -/
abbrev OpArg := String × Int

/-- One SBP signature: the SBP assigned to each listed slot. -/
abbrev SbpSignature := List (OpArg × SbpParallel)

/-- What the signature lambda reads from and writes to its `user_op::SbpContext*`: the
output slots, the node's attributes and worker count (never read by this operator), and
the list of signatures registered so far. -/
structure SbpContext where
  outputs : List OpArg
  attrs : MiniReaderAttrs
  parallel_num : Int
  sbp_sig_list : List SbpSignature

/-- Modelled from the spec: the signature builder class is declared in the framework, not in
this file. A builder accumulates one signature, a consistent assignment of a partition to
slots. -/
structure UserOpSbpSignatureBuilder where
  sbp_sig_tmp : SbpSignature

/-- Modelled from the spec: `NewBuilder()` starts a builder with no slot assigned. -/
def SbpContext.NewBuilder (_ctx : SbpContext) : UserOpSbpSignatureBuilder :=
  ⟨[]⟩

/-- Modelled from the spec: `Split(args, axis)` assigns Split(axis) to every slot of `args`. -/
def UserOpSbpSignatureBuilder.Split (b : UserOpSbpSignatureBuilder) (args : List OpArg)
    (axis : Int) : UserOpSbpSignatureBuilder :=
  ⟨b.sbp_sig_tmp ++ args.map (fun a => (a, SbpParallel.split_parallel axis))⟩

/-- Modelled from the spec: `Build()` adds the accumulated signature to the context's
signature list. -/
def UserOpSbpSignatureBuilder.Build (b : UserOpSbpSignatureBuilder) (ctx : SbpContext) :
    SbpContext :=
  { ctx with sbp_sig_list := ctx.sbp_sig_list ++ [b.sbp_sig_tmp] }

/-- The lambda passed to `SetGetSbpFn`; the result is the context after the call. -/
def GetSbpFn (ctx : SbpContext) : Except Error SbpContext := do
  let ctx := ((ctx.NewBuilder).Split ctx.outputs 0).Build ctx
  return ctx

/-- Context used in examples: the given batch size, SBP of every slot and worker count,
with arbitrary values for the other attributes. -/
def exampleCtx (batch_size : Int) (sbp : SbpParallel) (parallel_num : Int) : InferContext :=
  { attrs :=
      { data_dir := "./data", data_part_num := 1, part_name_prefix := "part-",
        part_name_suffix_length := -1, batch_size := batch_size, random_shuffle := false,
        shuffle_after_epoch := false, seed := -1, shuffle_buffer_size := 1024 },
    SbpParallel4ArgNameAndIndex := fun _ _ => sbp,
    parallel_num := parallel_num }

/-! ## Attribute declarations -/

/-- Modelled from the spec: the `UserOpAttrType` enumeration is declared in the framework, not
in this file; the spec lists the value types String, Int32, Int64, Bool, Float and more. -/
inductive UserOpAttrType where
  | kAtInt32
  | kAtInt64
  | kAtBool
  | kAtFloat
  | kAtDouble
  | kAtString
  deriving DecidableEq, Repr

/-- A typed attribute value; the constructor is the C++ type of the value, the template
argument of `.Attr<T>(...)`: `std::string`, `int32_t`, `int64_t` or `bool`. -/
inductive AttrVal where
  | ofString (v : String)
  | ofInt32 (v : Int)
  | ofInt64 (v : Int)
  | ofBool (v : Bool)
  deriving DecidableEq, Repr

/-- The `UserOpAttrType` tag of a value's type. -/
def AttrVal.type : AttrVal → UserOpAttrType
  | .ofString _ => .kAtString
  | .ofInt32 _ => .kAtInt32
  | .ofInt64 _ => .kAtInt64
  | .ofBool _ => .kAtBool

/-- One `.Attr(...)` call: the name, the declared type tag and the default value when the
call gives one. -/
structure AttrDecl where
  name : String
  value_type : UserOpAttrType
  default_val : Option AttrVal
  deriving DecidableEq, Repr

/-- An attribute is required when its declaration carries no default. -/
def AttrDecl.required (d : AttrDecl) : Bool := d.default_val.isNone

/-- The default of a declaration, when there is one, has the declared type. -/
def AttrDecl.default_typed (d : AttrDecl) : Bool :=
  match d.default_val with
  | none => true
  | some v => decide (v.type = d.value_type)

/-- The nine `.Attr(...)` calls of `REGISTER_CPU_ONLY_USER_OP("MiniReader")`, in source
order. -/
def MiniReaderAttrDefs : List AttrDecl :=
  [ ⟨"data_dir", .kAtString, none⟩,
    ⟨"data_part_num", .kAtInt32, none⟩,
    ⟨"part_name_prefix", .kAtString, some (.ofString "part-")⟩,
    ⟨"part_name_suffix_length", .kAtInt32, some (.ofInt32 (-1))⟩,
    ⟨"batch_size", .kAtInt32, none⟩,
    ⟨"random_shuffle", .kAtBool, some (.ofBool false)⟩,
    ⟨"shuffle_after_epoch", .kAtBool, some (.ofBool false)⟩,
    ⟨"seed", .kAtInt64, some (.ofInt64 (-1))⟩,
    ⟨"shuffle_buffer_size", .kAtInt32, some (.ofInt32 1024)⟩ ]

/-- Errors of the attribute registry, as named by the spec. -/
inductive AttrError where
  | DuplicateAttributeError (name : String)
  | MissingRequiredAttributeError (name : String)
  | UnknownAttributeError (name : String)
  | TypeMismatchError (name : String)
  deriving DecidableEq, Repr

/-- A name to typed-value mapping, supplied at node construction or returned resolved. -/
abbrev AttributeValue := List (String × AttrVal)

/-- Modelled from the spec: the `.Attr` method of the registration builder is declared in the
framework, not in this file. It is the spec's `declare(name, type, default?)`, which fails
with `DuplicateAttributeError` if the name is already declared for this operator. -/
def declare (decls : List AttrDecl) (d : AttrDecl) : Except AttrError (List AttrDecl) :=
  if decls.any (fun e => e.name == d.name) then .error (.DuplicateAttributeError d.name)
  else .ok (decls ++ [d])

/-- The chain of `.Attr(...)` calls: each declaration is added in turn to the operator's
declarations, starting from none. -/
def declareAll (ds : List AttrDecl) : Except AttrError (List AttrDecl) :=
  ds.foldlM declare []

/-- Modelled from the spec: attribute validation is framework code, not in this file. Every
supplied name must be declared (`UnknownAttributeError` otherwise) and its value must have
the declared type (`TypeMismatchError` otherwise). -/
def checkSupplied (decls : List AttrDecl) : AttributeValue → Except AttrError Unit
  | [] => .ok ()
  | (n, v) :: rest =>
    match decls.find? (fun d => d.name == n) with
    | none => .error (.UnknownAttributeError n)
    | some d =>
      if v.type = d.value_type then checkSupplied decls rest
      else .error (.TypeMismatchError n)

/-- Modelled from the spec: the resolved value of one declared attribute is the supplied
value when there is one, else the declared default, else `MissingRequiredAttributeError`. -/
def resolveOne (supplied : AttributeValue) (d : AttrDecl) : Except AttrError AttrVal :=
  match supplied.lookup d.name with
  | some v => .ok v
  | none =>
    match d.default_val with
    | some v => .ok v
    | none => .error (.MissingRequiredAttributeError d.name)

/-- Modelled from the spec: the fully-resolved attribute set, one entry per declaration
(defaults filled in). -/
def resolve (supplied : AttributeValue) : List AttrDecl → Except AttrError AttributeValue
  | [] => .ok []
  | d :: ds => do
    let v ← resolveOne supplied d
    let r ← resolve supplied ds
    pure ((d.name, v) :: r)

/-- Modelled from the spec: `validate(supplied_values)` of the Attribute Registry, which is
framework code, not in this file. It fails with `MissingRequiredAttributeError`,
`UnknownAttributeError` or `TypeMismatchError`, and on success returns the fully-resolved
attribute set with defaults filled in. -/
def validate (decls : List AttrDecl) (supplied : AttributeValue) :
    Except AttrError AttributeValue := do
  checkSupplied decls supplied
  resolve supplied decls

/-- Supplied attributes used in examples: the three required ones and a seed. -/
def exampleSupplied : AttributeValue :=
  [("data_dir", .ofString "./data"), ("data_part_num", .ofInt32 1),
   ("batch_size", .ofInt32 100), ("seed", .ofInt64 7)]

/-! ## Arithmetic of the mixed-width division -/

theorem wrapInt32_of_isInt32 (x : Int) (h : isInt32 x) : wrapInt32 x = x := by
  unfold isInt32 at h
  unfold wrapInt32
  omega

theorem tdiv_nonneg_le (n p : Int) (hn : 0 ≤ n) (hp : 1 ≤ p) :
    0 ≤ Int.tdiv n p ∧ Int.tdiv n p ≤ n := by
  have hp0 : 0 ≤ p := by omega
  rw [Int.tdiv_eq_ediv hn hp0]
  exact ⟨Int.ediv_nonneg hn hp0, Int.ediv_le_self p hn⟩

theorem isInt32_tdiv (n p : Int) (hn : isInt32 n) (hp : 1 ≤ p) : isInt32 (Int.tdiv n p) := by
  unfold isInt32 at *
  rcases le_or_lt 0 n with h0 | h0
  · have := tdiv_nonneg_le n p h0 hp
    omega
  · have h := tdiv_nonneg_le (-n) p (by omega) hp
    rw [Int.neg_tdiv] at h
    omega

theorem tmod_eq_zero_iff_emod (n p : Int) : Int.tmod n p = 0 ↔ n % p = 0 :=
  ⟨fun h => Int.emod_eq_zero_of_dvd (Int.dvd_of_tmod_eq_zero h),
   fun h => Int.tmod_eq_zero_of_dvd (Int.dvd_of_emod_eq_zero h)⟩

theorem tdiv_eq_ediv_of_emod (n p : Int) (h : n % p = 0) : Int.tdiv n p = n / p :=
  Int.tdiv_eq_ediv_of_dvd (Int.dvd_of_emod_eq_zero h)

/-! ## The inference function, branch by branch -/

theorem TensorDescInferFn_unsplit (ctx : InferContext)
    (h : ¬ ((ctx.SbpParallel4ArgNameAndIndex "out" 0).has_split_parallel = true
      ∧ 1 < ctx.parallel_num)) :
    TensorDescInferFn ctx = .ok ⟨[ctx.attrs.batch_size, 2], DataType.kDouble⟩ := by
  simp only [TensorDescInferFn, Bool.and_eq_true, decide_eq_true_eq, gt_iff_lt, if_neg h]
  rfl

theorem TensorDescInferFn_split_ok (ctx : InferContext)
    (hs : (ctx.SbpParallel4ArgNameAndIndex "out" 0).has_split_parallel = true)
    (hp : 1 < ctx.parallel_num)
    (hm : Int.tmod ctx.attrs.batch_size ctx.parallel_num = 0) :
    TensorDescInferFn ctx
      = .ok ⟨[wrapInt32 (Int.tdiv ctx.attrs.batch_size ctx.parallel_num), 2],
          DataType.kDouble⟩ := by
  have h : (ctx.SbpParallel4ArgNameAndIndex "out" 0).has_split_parallel = true
      ∧ 1 < ctx.parallel_num := ⟨hs, hp⟩
  simp only [TensorDescInferFn, Bool.and_eq_true, decide_eq_true_eq, gt_iff_lt, if_pos h,
    CHECK_EQ_OR_RETURN, hm]
  rfl

theorem TensorDescInferFn_split_error (ctx : InferContext)
    (hs : (ctx.SbpParallel4ArgNameAndIndex "out" 0).has_split_parallel = true)
    (hp : 1 < ctx.parallel_num)
    (hm : Int.tmod ctx.attrs.batch_size ctx.parallel_num ≠ 0) :
    TensorDescInferFn ctx
      = .error (.CheckFailedError (Int.tmod ctx.attrs.batch_size ctx.parallel_num) 0) := by
  have h : (ctx.SbpParallel4ArgNameAndIndex "out" 0).has_split_parallel = true
      ∧ 1 < ctx.parallel_num := ⟨hs, hp⟩
  simp only [TensorDescInferFn, Bool.and_eq_true, decide_eq_true_eq, gt_iff_lt, if_pos h,
    CHECK_EQ_OR_RETURN, if_neg hm]
  rfl

/-- When the split branch is taken and the check passes on a 32-bit batch size, the stored
quotient is the exact mathematical quotient. -/
theorem TensorDescInferFn_split_exact (ctx : InferContext)
    (hN : isInt32 ctx.attrs.batch_size)
    (hs : (ctx.SbpParallel4ArgNameAndIndex "out" 0).has_split_parallel = true)
    (hp : 1 < ctx.parallel_num)
    (hm : ctx.attrs.batch_size % ctx.parallel_num = 0) :
    TensorDescInferFn ctx
      = .ok ⟨[ctx.attrs.batch_size / ctx.parallel_num, 2], DataType.kDouble⟩ := by
  rw [TensorDescInferFn_split_ok ctx hs hp ((tmod_eq_zero_iff_emod _ _).2 hm),
    wrapInt32_of_isInt32 _ (isInt32_tdiv _ _ hN (by omega)), tdiv_eq_ediv_of_emod _ _ hm]

/-- The inference result is a function of the batch size, the SBP of `("out", 0)` and the
worker count only. -/
theorem TensorDescInferFn_congr (c1 c2 : InferContext)
    (hb : c1.attrs.batch_size = c2.attrs.batch_size)
    (hs : c1.SbpParallel4ArgNameAndIndex "out" 0 = c2.SbpParallel4ArgNameAndIndex "out" 0)
    (hp : c1.parallel_num = c2.parallel_num) :
    TensorDescInferFn c1 = TensorDescInferFn c2 := by
  simp only [TensorDescInferFn, hb, hs, hp]

/-- Shape of any successful result: the local leading dimension followed by 2. -/
theorem TensorDescInferFn_shape (ctx : InferContext) (td : TensorDesc)
    (h : TensorDescInferFn ctx = .ok td) :
    td.shape =
      [if (ctx.SbpParallel4ArgNameAndIndex "out" 0).has_split_parallel = true
          ∧ 1 < ctx.parallel_num
        then wrapInt32 (Int.tdiv ctx.attrs.batch_size ctx.parallel_num)
        else ctx.attrs.batch_size, 2] := by
  by_cases hc : (ctx.SbpParallel4ArgNameAndIndex "out" 0).has_split_parallel = true
      ∧ 1 < ctx.parallel_num
  · by_cases hm : Int.tmod ctx.attrs.batch_size ctx.parallel_num = 0
    · rw [TensorDescInferFn_split_ok ctx hc.1 hc.2 hm] at h
      injection h with h
      subst h
      simp only [if_pos hc]
    · rw [TensorDescInferFn_split_error ctx hc.1 hc.2 hm] at h
      cases h
  · rw [TensorDescInferFn_unsplit ctx hc] at h
    injection h with h
    subst h
    simp only [if_neg hc]

theorem tdiv_abs_le (n p : Int) (hp : 1 ≤ p) : |Int.tdiv n p| ≤ |n| := by
  rcases le_or_lt 0 n with h0 | h0
  · have h := tdiv_nonneg_le n p h0 hp
    rw [abs_of_nonneg h.1, abs_of_nonneg h0]
    exact h.2
  · have h := tdiv_nonneg_le (-n) p (by omega) hp
    rw [Int.neg_tdiv] at h
    rw [abs_of_nonpos (by omega), abs_of_neg h0]
    exact h.2

theorem tmod_bounds (n p : Int) (hp : 1 ≤ p) : -p < Int.tmod n p ∧ Int.tmod n p < p := by
  have hlt := Int.tmod_lt_of_pos n (show 0 < p by omega)
  rcases le_or_lt 0 n with h0 | h0
  · have := Int.tmod_nonneg p h0
    omega
  · have h1 := Int.tmod_nonneg p (show 0 ≤ -n by omega)
    have h2 := Int.tmod_lt_of_pos (-n) (show 0 < p by omega)
    have e1 := Int.tmod_def n p
    have e2 := Int.tmod_def (-n) p
    rw [Int.neg_tdiv] at e2
    have e3 : Int.tmod n p = -Int.tmod (-n) p := by
      rw [e1, e2, Int.mul_neg]
      omega
    omega

/-- The result in every case: the error of the check exactly on an uneven split, a
descriptor otherwise. -/
theorem TensorDescInferFn_cases (ctx : InferContext) :
    ((ctx.SbpParallel4ArgNameAndIndex "out" 0).has_split_parallel = true
        ∧ 1 < ctx.parallel_num ∧ ctx.attrs.batch_size % ctx.parallel_num ≠ 0
      ∧ TensorDescInferFn ctx
          = .error (.CheckFailedError (Int.tmod ctx.attrs.batch_size ctx.parallel_num) 0))
    ∨ (¬ ((ctx.SbpParallel4ArgNameAndIndex "out" 0).has_split_parallel = true
        ∧ 1 < ctx.parallel_num ∧ ctx.attrs.batch_size % ctx.parallel_num ≠ 0)
      ∧ ∃ td : TensorDesc, TensorDescInferFn ctx = .ok td) := by
  by_cases hc : (ctx.SbpParallel4ArgNameAndIndex "out" 0).has_split_parallel = true
      ∧ 1 < ctx.parallel_num
  · by_cases hm : Int.tmod ctx.attrs.batch_size ctx.parallel_num = 0
    · have he := (tmod_eq_zero_iff_emod _ _).1 hm
      exact Or.inr ⟨fun h => h.2.2 he, _, TensorDescInferFn_split_ok ctx hc.1 hc.2 hm⟩
    · exact Or.inl ⟨hc.1, hc.2, fun he => hm ((tmod_eq_zero_iff_emod _ _).2 he),
        TensorDescInferFn_split_error ctx hc.1 hc.2 hm⟩
  · exact Or.inr ⟨fun h => hc ⟨h.1, h.2.1⟩, _, TensorDescInferFn_unsplit ctx hc⟩

theorem tmod_neg_left (n p : Int) : Int.tmod (-n) p = -Int.tmod n p := by
  rw [Int.tmod_def, Int.tmod_def, Int.neg_tdiv]
  ring

/-- A dividend smaller in magnitude than the divisor is its own truncated remainder. -/
theorem tmod_eq_self_of_abs_lt (n p : Int) (h1 : -p < n) (h2 : n < p) : Int.tmod n p = n := by
  rcases le_or_lt 0 n with h0 | h0
  · exact Int.tmod_eq_of_lt h0 h2
  · have h := tmod_neg_left (-n) p
    rw [Int.neg_neg, Int.tmod_eq_of_lt (show 0 ≤ -n by omega) (show -n < p by omega)] at h
    omega

/-- An exact quotient of a negative dividend by a positive divisor is negative. -/
theorem ediv_neg_of_emod_eq_zero (n p : Int) (hn : n < 0) (hp : 1 ≤ p) (h : n % p = 0) :
    n / p < 0 := by
  have hmul := Int.ediv_mul_cancel (Int.dvd_of_emod_eq_zero h)
  by_contra hq
  have hq0 : 0 ≤ n / p := by omega
  have : 0 ≤ n / p * p := Int.mul_nonneg hq0 (by omega)
  omega

/-! ## Resolution of attributes -/

/-- On success, a resolved set built from declarations with pairwise distinct names maps
each declared name to the resolved value of its declaration. -/
theorem resolve_lookup (supplied : AttributeValue) :
    ∀ (ds : List AttrDecl) (r : AttributeValue), (ds.map AttrDecl.name).Nodup →
      resolve supplied ds = .ok r →
      ∀ d ∈ ds, ∃ v, resolveOne supplied d = .ok v ∧ r.lookup d.name = some v := by
  intro ds
  induction ds with
  | nil => intro r _ _ d hd; cases hd
  | cons e es ih =>
    intro r hnd h d hd
    rw [List.map_cons, List.nodup_cons] at hnd
    unfold resolve at h
    cases hv : resolveOne supplied e with
    | error x => rw [hv] at h; cases h
    | ok v =>
      cases hr : resolve supplied es with
      | error x => rw [hv, hr] at h; cases h
      | ok r1 =>
        rw [hv, hr] at h
        injection h with h
        subst h
        rcases List.mem_cons.1 hd with rfl | hmem
        · exact ⟨v, hv, List.lookup_cons_self⟩
        · obtain ⟨w, hw, hl⟩ := ih r1 hnd.2 hr d hmem
          refine ⟨w, hw, ?_⟩
          have hne : d.name ≠ e.name := fun heq =>
            hnd.1 (heq ▸ List.mem_map_of_mem AttrDecl.name hmem)
          rw [List.lookup_cons, beq_false_of_ne hne]
          exact hl

theorem validate_ok_resolve (decls : List AttrDecl) (supplied r : AttributeValue)
    (h : validate decls supplied = .ok r) : resolve supplied decls = .ok r := by
  unfold validate at h
  cases hc : checkSupplied decls supplied with
  | error x => rw [hc] at h; cases h
  | ok u => rw [hc] at h; exact h

theorem MiniReaderAttrDefs_nodup : (MiniReaderAttrDefs.map AttrDecl.name).Nodup := by
  decide

/-! ## Claims about tensor-descriptor inference -/

/-- C1: for every 32-bit batch size N and every worker count at least 1 that divides N,
when slot "out" is assigned Split(0), inference succeeds and the output descriptor is
[N / worker_count, 2] of element type double; its leading dimension is N / worker_count. -/
theorem infer_split0_divisible (ctx : InferContext)
    (hN : isInt32 ctx.attrs.batch_size)
    (hp : 1 ≤ ctx.parallel_num)
    (hdiv : ctx.attrs.batch_size % ctx.parallel_num = 0)
    (hsbp : ctx.SbpParallel4ArgNameAndIndex "out" 0 = SbpParallel.split_parallel 0) :
    TensorDescInferFn ctx
      = .ok ⟨[ctx.attrs.batch_size / ctx.parallel_num, 2], DataType.kDouble⟩ := by
  rcases eq_or_lt_of_le hp with h1 | h1
  · rw [TensorDescInferFn_unsplit ctx (by omega), ← h1, Int.ediv_one]
  · exact TensorDescInferFn_split_exact ctx hN (by rw [hsbp]; rfl) h1 hdiv

theorem infer_split0_divisible_witness :
    isInt32 (exampleCtx 100 (SbpParallel.split_parallel 0) 4).attrs.batch_size
    ∧ 1 ≤ (exampleCtx 100 (SbpParallel.split_parallel 0) 4).parallel_num
    ∧ (100 : Int) % 4 = 0
    ∧ TensorDescInferFn (exampleCtx 100 (SbpParallel.split_parallel 0) 4)
        = .ok ⟨[25, 2], DataType.kDouble⟩ :=
  ⟨by decide, by decide, by decide,
   infer_split0_divisible (exampleCtx 100 (SbpParallel.split_parallel 0) 4)
     (by decide) (by decide) (by decide) rfl⟩

/-- C2: for every batch size N and every worker count at least 1 with N mod worker_count
nonzero, when slot "out" is assigned Split(0), inference fails with the error of the
divisibility check (the uneven-split error) and returns no output descriptor. -/
theorem infer_split0_indivisible (ctx : InferContext)
    (hp : 1 ≤ ctx.parallel_num)
    (hdiv : ctx.attrs.batch_size % ctx.parallel_num ≠ 0)
    (hsbp : ctx.SbpParallel4ArgNameAndIndex "out" 0 = SbpParallel.split_parallel 0) :
    TensorDescInferFn ctx
        = .error (.CheckFailedError (Int.tmod ctx.attrs.batch_size ctx.parallel_num) 0)
    ∧ ∀ td : TensorDesc, TensorDescInferFn ctx ≠ .ok td := by
  have h1 : 1 < ctx.parallel_num := by
    rcases eq_or_lt_of_le hp with h | h
    · rw [← h, Int.emod_one] at hdiv
      exact absurd rfl hdiv
    · exact h
  have he := TensorDescInferFn_split_error ctx (by rw [hsbp]; rfl) h1
    (fun h => hdiv ((tmod_eq_zero_iff_emod _ _).1 h))
  refine ⟨he, fun td h => ?_⟩
  rw [he] at h
  cases h

theorem infer_split0_indivisible_witness :
    1 ≤ (exampleCtx 100 (SbpParallel.split_parallel 0) 3).parallel_num
    ∧ (100 : Int) % 3 ≠ 0
    ∧ TensorDescInferFn (exampleCtx 100 (SbpParallel.split_parallel 0) 3)
        = .error (.CheckFailedError 1 0) :=
  ⟨by decide, by decide,
   (infer_split0_indivisible (exampleCtx 100 (SbpParallel.split_parallel 0) 3)
     (by decide) (by decide) rfl).1⟩

/-- C3: when the worker count is 1, for every batch size N and every partition assigned to
"out" (Split of any axis, Broadcast, PartialReduce), inference succeeds with shape [N, 2]. -/
theorem infer_single_worker (ctx : InferContext) (hp : ctx.parallel_num = 1) :
    TensorDescInferFn ctx = .ok ⟨[ctx.attrs.batch_size, 2], DataType.kDouble⟩ :=
  TensorDescInferFn_unsplit ctx (by omega)

theorem infer_single_worker_witness :
    (exampleCtx 100 (SbpParallel.split_parallel 1) 1).parallel_num = 1
    ∧ TensorDescInferFn (exampleCtx 100 (SbpParallel.split_parallel 1) 1)
        = .ok ⟨[100, 2], DataType.kDouble⟩ :=
  ⟨rfl, infer_single_worker (exampleCtx 100 (SbpParallel.split_parallel 1) 1) rfl⟩

/-- C4: when slot "out" is assigned Broadcast, for every batch size N and every worker
count (whether or not it divides N), inference succeeds and the leading dimension is N
unchanged. -/
theorem infer_broadcast (ctx : InferContext)
    (hsbp : ctx.SbpParallel4ArgNameAndIndex "out" 0 = SbpParallel.broadcast_parallel) :
    TensorDescInferFn ctx = .ok ⟨[ctx.attrs.batch_size, 2], DataType.kDouble⟩ :=
  TensorDescInferFn_unsplit ctx (by rw [hsbp]; simp [SbpParallel.has_split_parallel])

theorem infer_broadcast_witness :
    (exampleCtx 100 SbpParallel.broadcast_parallel 3).SbpParallel4ArgNameAndIndex "out" 0
        = SbpParallel.broadcast_parallel
    ∧ (100 : Int) % 3 ≠ 0
    ∧ TensorDescInferFn (exampleCtx 100 SbpParallel.broadcast_parallel 3)
        = .ok ⟨[100, 2], DataType.kDouble⟩ :=
  ⟨rfl, by decide, infer_broadcast (exampleCtx 100 SbpParallel.broadcast_parallel 3) rfl⟩

/-- C5: whenever inference succeeds, the output descriptor has exactly two dimensions, the
local leading dimension followed by the fixed feature width 2, and element type double;
the result is the same for any other values of the attributes besides batch_size. -/
theorem infer_output_form (ctx : InferContext) (td : TensorDesc)
    (h : TensorDescInferFn ctx = .ok td) :
    td.shape =
        [if (ctx.SbpParallel4ArgNameAndIndex "out" 0).has_split_parallel = true
            ∧ 1 < ctx.parallel_num
          then wrapInt32 (Int.tdiv ctx.attrs.batch_size ctx.parallel_num)
          else ctx.attrs.batch_size, 2]
    ∧ td.data_type = DataType.kDouble
    ∧ ∀ attrs1 : MiniReaderAttrs, attrs1.batch_size = ctx.attrs.batch_size →
        TensorDescInferFn { ctx with attrs := attrs1 } = .ok td := by
  refine ⟨TensorDescInferFn_shape ctx td h, ?_, fun attrs1 hb => ?_⟩
  · by_cases hc : (ctx.SbpParallel4ArgNameAndIndex "out" 0).has_split_parallel = true
        ∧ 1 < ctx.parallel_num
    · by_cases hm : Int.tmod ctx.attrs.batch_size ctx.parallel_num = 0
      · rw [TensorDescInferFn_split_ok ctx hc.1 hc.2 hm] at h
        injection h with h
        subst h
        rfl
      · rw [TensorDescInferFn_split_error ctx hc.1 hc.2 hm] at h
        cases h
    · rw [TensorDescInferFn_unsplit ctx hc] at h
      injection h with h
      subst h
      rfl
  · rw [← h]
    exact TensorDescInferFn_congr _ _ hb rfl rfl

theorem infer_output_form_witness :
    TensorDescInferFn (exampleCtx 100 (SbpParallel.split_parallel 0) 4)
        = .ok ⟨[25, 2], DataType.kDouble⟩
    ∧ (⟨[25, 2], DataType.kDouble⟩ : TensorDesc).shape = [25, 2]
    ∧ (⟨[25, 2], DataType.kDouble⟩ : TensorDesc).data_type = DataType.kDouble :=
  ⟨rfl,
   (infer_output_form (exampleCtx 100 (SbpParallel.split_parallel 0) 4)
     ⟨[25, 2], DataType.kDouble⟩ rfl).1,
   (infer_output_form (exampleCtx 100 (SbpParallel.split_parallel 0) 4)
     ⟨[25, 2], DataType.kDouble⟩ rfl).2.1⟩

/-- C6: for every 32-bit batch size N and worker count greater than 1, whenever inference
succeeds with a Split partition (of any axis) on "out", the local leading dimension L
satisfies L * worker_count = N exactly. -/
theorem infer_split_partition_exact (ctx : InferContext) (td : TensorDesc) (axis : Int)
    (hN : isInt32 ctx.attrs.batch_size)
    (hp : 1 < ctx.parallel_num)
    (hsbp : ctx.SbpParallel4ArgNameAndIndex "out" 0 = SbpParallel.split_parallel axis)
    (h : TensorDescInferFn ctx = .ok td) :
    ∃ L : Int, td.shape = [L, 2] ∧ L * ctx.parallel_num = ctx.attrs.batch_size := by
  have hs : (ctx.SbpParallel4ArgNameAndIndex "out" 0).has_split_parallel = true := by
    rw [hsbp]; rfl
  by_cases hm : Int.tmod ctx.attrs.batch_size ctx.parallel_num = 0
  · have he := (tmod_eq_zero_iff_emod _ _).1 hm
    rw [TensorDescInferFn_split_exact ctx hN hs hp he] at h
    injection h with h
    subst h
    exact ⟨_, rfl, Int.ediv_mul_cancel (Int.dvd_of_emod_eq_zero he)⟩
  · rw [TensorDescInferFn_split_error ctx hs hp hm] at h
    cases h

theorem infer_split_partition_exact_witness :
    isInt32 (exampleCtx 100 (SbpParallel.split_parallel 0) 4).attrs.batch_size
    ∧ 1 < (exampleCtx 100 (SbpParallel.split_parallel 0) 4).parallel_num
    ∧ TensorDescInferFn (exampleCtx 100 (SbpParallel.split_parallel 0) 4)
        = .ok ⟨[25, 2], DataType.kDouble⟩
    ∧ ∃ L : Int, (⟨[25, 2], DataType.kDouble⟩ : TensorDesc).shape = [L, 2]
        ∧ L * (exampleCtx 100 (SbpParallel.split_parallel 0) 4).parallel_num
            = (exampleCtx 100 (SbpParallel.split_parallel 0) 4).attrs.batch_size :=
  ⟨by decide, by decide, rfl,
   infer_split_partition_exact (exampleCtx 100 (SbpParallel.split_parallel 0) 4)
     ⟨[25, 2], DataType.kDouble⟩ 0 (by decide) (by decide) rfl rfl⟩

/-- C7: for every list of output slots, attribute values, worker count and previously
registered signatures, the signature builder succeeds and registers exactly one new
signature; that signature lists exactly the output slots, assigns Split(0) to each of
them (no Broadcast or PartialReduce entry), and is the same whatever the attributes and
the worker count are. In particular the signature set is never empty. -/
theorem GetSbpFn_single_split0 (ctx : SbpContext) :
    ∃ sig : SbpSignature,
      GetSbpFn ctx = .ok { ctx with sbp_sig_list := ctx.sbp_sig_list ++ [sig] }
      ∧ sig.map Prod.fst = ctx.outputs
      ∧ (∀ e ∈ sig, e.2 = SbpParallel.split_parallel 0)
      ∧ (∀ (attrs1 : MiniReaderAttrs) (n1 : Int),
          (GetSbpFn ⟨ctx.outputs, attrs1, n1, []⟩).map SbpContext.sbp_sig_list
            = .ok [sig]) := by
  refine ⟨ctx.outputs.map (fun a => (a, SbpParallel.split_parallel 0)), ?_, ?_, ?_, ?_⟩
  · simp [GetSbpFn, SbpContext.NewBuilder, UserOpSbpSignatureBuilder.Split,
      UserOpSbpSignatureBuilder.Build]
    rfl
  · simp [List.map_map, Function.comp_def]
  · intro e he
    rcases List.mem_map.1 he with ⟨a, _, rfl⟩
    rfl
  · intro attrs1 n1
    simp [GetSbpFn, SbpContext.NewBuilder, UserOpSbpSignatureBuilder.Split,
      UserOpSbpSignatureBuilder.Build]
    rfl

/-- C8, as amended: a negative batch size is not rejected. For every negative 32-bit batch
size N, inference fails only with the error of the divisibility check, exactly when "out"
has a Split partition, the worker count exceeds 1 and N mod worker_count is nonzero; when
the split divides evenly it succeeds with the negative leading dimension
N / worker_count, and in every other case it succeeds with leading dimension N. -/
theorem infer_negative_batch_size (ctx : InferContext)
    (hN : isInt32 ctx.attrs.batch_size)
    (hneg : ctx.attrs.batch_size < 0) :
    ((ctx.SbpParallel4ArgNameAndIndex "out" 0).has_split_parallel = true
        ∧ 1 < ctx.parallel_num ∧ ctx.attrs.batch_size % ctx.parallel_num ≠ 0 →
      TensorDescInferFn ctx
        = .error (.CheckFailedError (Int.tmod ctx.attrs.batch_size ctx.parallel_num) 0))
    ∧ ((ctx.SbpParallel4ArgNameAndIndex "out" 0).has_split_parallel = true
        ∧ 1 < ctx.parallel_num ∧ ctx.attrs.batch_size % ctx.parallel_num = 0 →
      TensorDescInferFn ctx
          = .ok ⟨[ctx.attrs.batch_size / ctx.parallel_num, 2], DataType.kDouble⟩
        ∧ ctx.attrs.batch_size / ctx.parallel_num < 0)
    ∧ (¬ ((ctx.SbpParallel4ArgNameAndIndex "out" 0).has_split_parallel = true
        ∧ 1 < ctx.parallel_num) →
      TensorDescInferFn ctx = .ok ⟨[ctx.attrs.batch_size, 2], DataType.kDouble⟩) := by
  refine ⟨fun h => ?_, fun h => ⟨?_, ?_⟩, fun h => TensorDescInferFn_unsplit ctx h⟩
  · exact TensorDescInferFn_split_error ctx h.1 h.2.1
      (fun hm => h.2.2 ((tmod_eq_zero_iff_emod _ _).1 hm))
  · exact TensorDescInferFn_split_exact ctx hN h.1 h.2.1 h.2.2
  · have hmul := Int.ediv_mul_cancel (Int.dvd_of_emod_eq_zero h.2.2)
    have hp := h.2.1
    by_contra hq
    have hq0 : 0 ≤ ctx.attrs.batch_size / ctx.parallel_num := by omega
    have : 0 ≤ ctx.attrs.batch_size / ctx.parallel_num * ctx.parallel_num :=
      Int.mul_nonneg hq0 (by omega)
    omega

theorem infer_negative_batch_size_witness :
    isInt32 (exampleCtx (-100) (SbpParallel.split_parallel 0) 4).attrs.batch_size
    ∧ (exampleCtx (-100) (SbpParallel.split_parallel 0) 4).attrs.batch_size < 0
    ∧ TensorDescInferFn (exampleCtx (-100) (SbpParallel.split_parallel 0) 4)
        = .ok ⟨[-25, 2], DataType.kDouble⟩ :=
  ⟨by decide, by decide,
   ((infer_negative_batch_size (exampleCtx (-100) (SbpParallel.split_parallel 0) 4)
     (by decide) (by decide)).2.1 ⟨rfl, by decide, by decide⟩).1⟩

/-- C8 as stated fails: with batch size -4, two workers and Split(0) on "out", inference
does not fail; it returns the descriptor [-2, 2], a divided negative leading dimension. -/
theorem infer_negative_batch_size_accepted :
    isInt32 (exampleCtx (-4) (SbpParallel.split_parallel 0) 2).attrs.batch_size
    ∧ (exampleCtx (-4) (SbpParallel.split_parallel 0) 2).attrs.batch_size < 0
    ∧ TensorDescInferFn (exampleCtx (-4) (SbpParallel.split_parallel 0) 2)
        = .ok ⟨[-2, 2], DataType.kDouble⟩ :=
  ⟨by decide, by decide, rfl⟩

/-- C9: batch size 0 is legal: for every worker count and every partition on "out",
inference succeeds and produces the empty-batch shape [0, 2]. -/
theorem infer_empty_batch (ctx : InferContext) (h0 : ctx.attrs.batch_size = 0) :
    TensorDescInferFn ctx = .ok ⟨[0, 2], DataType.kDouble⟩ := by
  by_cases hc : (ctx.SbpParallel4ArgNameAndIndex "out" 0).has_split_parallel = true
      ∧ 1 < ctx.parallel_num
  · rw [TensorDescInferFn_split_ok ctx hc.1 hc.2 (by rw [h0, Int.zero_tmod]), h0,
      Int.zero_tdiv]
    rfl
  · rw [TensorDescInferFn_unsplit ctx hc, h0]

theorem infer_empty_batch_witness :
    (exampleCtx 0 (SbpParallel.split_parallel 0) 3).attrs.batch_size = 0
    ∧ TensorDescInferFn (exampleCtx 0 (SbpParallel.split_parallel 0) 3)
        = .ok ⟨[0, 2], DataType.kDouble⟩ :=
  ⟨rfl, infer_empty_batch (exampleCtx 0 (SbpParallel.split_parallel 0) 3) rfl⟩

/-- C10, as amended: for every non-negative 32-bit batch size, every worker count and
every partition on "out", every descriptor that inference returns on success has a shape
of non-negative integers only; for a negative 32-bit batch size the leading dimension of
every descriptor returned on success is negative. -/
theorem infer_shape_nonneg (ctx : InferContext) (td : TensorDesc)
    (hN : isInt32 ctx.attrs.batch_size)
    (h : TensorDescInferFn ctx = .ok td) :
    (0 ≤ ctx.attrs.batch_size → ∀ d ∈ td.shape, 0 ≤ d)
    ∧ (ctx.attrs.batch_size < 0 → ∃ L : Int, td.shape = [L, 2] ∧ L < 0) := by
  have hshape := (TensorDescInferFn_shape ctx td h)
  constructor
  · intro h0 d hd
    rw [hshape] at hd
    simp only [List.mem_cons, List.mem_singleton, List.not_mem_nil, or_false] at hd
    rcases hd with rfl | rfl
    · split
      · next hc =>
        have hb := tdiv_nonneg_le ctx.attrs.batch_size ctx.parallel_num h0 (by omega)
        rw [wrapInt32_of_isInt32 _ (isInt32_tdiv _ _ hN (by omega))]
        exact hb.1
      · exact h0
    · decide
  · intro hneg
    refine ⟨_, hshape, ?_⟩
    by_cases hc : (ctx.SbpParallel4ArgNameAndIndex "out" 0).has_split_parallel = true
        ∧ 1 < ctx.parallel_num
    · rw [if_pos hc]
      by_cases hm : Int.tmod ctx.attrs.batch_size ctx.parallel_num = 0
      · have he := (tmod_eq_zero_iff_emod _ _).1 hm
        rw [wrapInt32_of_isInt32 _ (isInt32_tdiv _ _ hN (by omega)),
          tdiv_eq_ediv_of_emod _ _ he]
        exact ediv_neg_of_emod_eq_zero _ _ hneg (by omega) he
      · rw [TensorDescInferFn_split_error ctx hc.1 hc.2 hm] at h
        cases h
    · rw [if_neg hc]
      exact hneg

theorem infer_shape_nonneg_witness :
    isInt32 (exampleCtx 100 (SbpParallel.split_parallel 0) 4).attrs.batch_size
    ∧ 0 ≤ (exampleCtx 100 (SbpParallel.split_parallel 0) 4).attrs.batch_size
    ∧ TensorDescInferFn (exampleCtx 100 (SbpParallel.split_parallel 0) 4)
        = .ok ⟨[25, 2], DataType.kDouble⟩
    ∧ (∀ d ∈ (⟨[25, 2], DataType.kDouble⟩ : TensorDesc).shape, 0 ≤ d)
    ∧ isInt32 (exampleCtx (-100) (SbpParallel.split_parallel 0) 4).attrs.batch_size
    ∧ (exampleCtx (-100) (SbpParallel.split_parallel 0) 4).attrs.batch_size < 0
    ∧ TensorDescInferFn (exampleCtx (-100) (SbpParallel.split_parallel 0) 4)
        = .ok ⟨[-25, 2], DataType.kDouble⟩
    ∧ ∃ L : Int, (⟨[-25, 2], DataType.kDouble⟩ : TensorDesc).shape = [L, 2] ∧ L < 0 :=
  ⟨by decide, by decide, rfl,
   (infer_shape_nonneg (exampleCtx 100 (SbpParallel.split_parallel 0) 4)
     ⟨[25, 2], DataType.kDouble⟩ (by decide) rfl).1 (by decide),
   by decide, by decide, rfl,
   (infer_shape_nonneg (exampleCtx (-100) (SbpParallel.split_parallel 0) 4)
     ⟨[-25, 2], DataType.kDouble⟩ (by decide) (by rfl)).2 (by decide)⟩

/-- C10 as stated fails: with batch size -1, a legal `int32_t` value, Broadcast on "out" and
one worker, inference succeeds and returns the shape [-1, 2], whose leading dimension is
negative. -/
theorem infer_shape_negative_dim :
    isInt32 (exampleCtx (-1) SbpParallel.broadcast_parallel 1).attrs.batch_size
    ∧ 1 ≤ (exampleCtx (-1) SbpParallel.broadcast_parallel 1).parallel_num
    ∧ TensorDescInferFn (exampleCtx (-1) SbpParallel.broadcast_parallel 1)
        = .ok ⟨[-1, 2], DataType.kDouble⟩
    ∧ ¬ ∀ d ∈ (⟨[-1, 2], DataType.kDouble⟩ : TensorDesc).shape, 0 ≤ d :=
  ⟨by decide, by decide, rfl, by decide⟩

/-! ## Claims about the attribute declarations -/

/-- C11: whenever validation of a supplied attribute set against the MiniReader
declarations succeeds, every attribute declared with a default and omitted from the
supplied set resolves to its declared default (part_name_prefix "part-",
part_name_suffix_length -1, random_shuffle false, shuffle_after_epoch false, seed -1,
shuffle_buffer_size 1024), and every supplied value of a declared name is kept, not
overwritten by the default. -/
theorem validate_fills_defaults (supplied resolved : AttributeValue)
    (h : validate MiniReaderAttrDefs supplied = .ok resolved) :
    (∀ d ∈ MiniReaderAttrDefs, ∀ v, d.default_val = some v →
        supplied.lookup d.name = none → resolved.lookup d.name = some v)
    ∧ (∀ d ∈ MiniReaderAttrDefs, ∀ w, supplied.lookup d.name = some w →
        resolved.lookup d.name = some w)
    ∧ (supplied.lookup "part_name_prefix" = none →
        resolved.lookup "part_name_prefix" = some (AttrVal.ofString "part-"))
    ∧ (supplied.lookup "part_name_suffix_length" = none →
        resolved.lookup "part_name_suffix_length" = some (AttrVal.ofInt32 (-1)))
    ∧ (supplied.lookup "random_shuffle" = none →
        resolved.lookup "random_shuffle" = some (AttrVal.ofBool false))
    ∧ (supplied.lookup "shuffle_after_epoch" = none →
        resolved.lookup "shuffle_after_epoch" = some (AttrVal.ofBool false))
    ∧ (supplied.lookup "seed" = none →
        resolved.lookup "seed" = some (AttrVal.ofInt64 (-1)))
    ∧ (supplied.lookup "shuffle_buffer_size" = none →
        resolved.lookup "shuffle_buffer_size" = some (AttrVal.ofInt32 1024)) := by
  have hr := resolve_lookup supplied MiniReaderAttrDefs resolved MiniReaderAttrDefs_nodup
    (validate_ok_resolve _ _ _ h)
  have hdef : ∀ d ∈ MiniReaderAttrDefs, ∀ v, d.default_val = some v →
      supplied.lookup d.name = none → resolved.lookup d.name = some v := by
    intro d hd v hv hnone
    obtain ⟨w, hw, hl⟩ := hr d hd
    simp only [resolveOne, hnone, hv] at hw
    injection hw with hw
    rw [hl, hw]
  have hkeep : ∀ d ∈ MiniReaderAttrDefs, ∀ w, supplied.lookup d.name = some w →
      resolved.lookup d.name = some w := by
    intro d hd w hsome
    obtain ⟨u, hu, hl⟩ := hr d hd
    simp only [resolveOne, hsome] at hu
    injection hu with hu
    rw [hl, hu]
  refine ⟨hdef, hkeep, ?_, ?_, ?_, ?_, ?_, ?_⟩
  · exact hdef ⟨"part_name_prefix", .kAtString, some (.ofString "part-")⟩ (by decide) _ rfl
  · exact hdef ⟨"part_name_suffix_length", .kAtInt32, some (.ofInt32 (-1))⟩ (by decide) _ rfl
  · exact hdef ⟨"random_shuffle", .kAtBool, some (.ofBool false)⟩ (by decide) _ rfl
  · exact hdef ⟨"shuffle_after_epoch", .kAtBool, some (.ofBool false)⟩ (by decide) _ rfl
  · exact hdef ⟨"seed", .kAtInt64, some (.ofInt64 (-1))⟩ (by decide) _ rfl
  · exact hdef ⟨"shuffle_buffer_size", .kAtInt32, some (.ofInt32 1024)⟩ (by decide) _ rfl

theorem validate_fills_defaults_witness :
    validate MiniReaderAttrDefs exampleSupplied
        = .ok [("data_dir", .ofString "./data"), ("data_part_num", .ofInt32 1),
            ("part_name_prefix", .ofString "part-"),
            ("part_name_suffix_length", .ofInt32 (-1)),
            ("batch_size", .ofInt32 100), ("random_shuffle", .ofBool false),
            ("shuffle_after_epoch", .ofBool false), ("seed", .ofInt64 7),
            ("shuffle_buffer_size", .ofInt32 1024)]
    ∧ exampleSupplied.lookup "shuffle_buffer_size" = none
    ∧ List.lookup "shuffle_buffer_size"
          [("data_dir", AttrVal.ofString "./data"), ("data_part_num", .ofInt32 1),
            ("part_name_prefix", .ofString "part-"),
            ("part_name_suffix_length", .ofInt32 (-1)),
            ("batch_size", .ofInt32 100), ("random_shuffle", .ofBool false),
            ("shuffle_after_epoch", .ofBool false), ("seed", .ofInt64 7),
            ("shuffle_buffer_size", .ofInt32 1024)]
        = some (AttrVal.ofInt32 1024) :=
  ⟨rfl, rfl,
   (validate_fills_defaults exampleSupplied _ rfl).2.2.2.2.2.2.2 rfl⟩

/-- C12: the MiniReader declaration list satisfies the declaration invariants. It has nine
declarations with pairwise distinct names, so declaring them one after another raises no
DuplicateAttributeError; every declared type is String, Int32, Int64 or Bool and every
declared default has the declared type; and the required declarations, those carrying no
default, are exactly data_dir, data_part_num and batch_size. -/
theorem MiniReaderAttrDefs_invariants :
    MiniReaderAttrDefs.length = 9
    ∧ (MiniReaderAttrDefs.map AttrDecl.name).Nodup
    ∧ declareAll MiniReaderAttrDefs = .ok MiniReaderAttrDefs
    ∧ (∀ d ∈ MiniReaderAttrDefs, d.value_type ∈
        [UserOpAttrType.kAtString, UserOpAttrType.kAtInt32, UserOpAttrType.kAtInt64,
          UserOpAttrType.kAtBool])
    ∧ (∀ d ∈ MiniReaderAttrDefs, ∀ v, d.default_val = some v → v.type = d.value_type)
    ∧ (∀ d ∈ MiniReaderAttrDefs,
        d.default_val = none ↔ d.name ∈ ["data_dir", "data_part_num", "batch_size"])
    ∧ (∀ d ∈ MiniReaderAttrDefs,
        d.required = true ↔ d.name ∈ ["data_dir", "data_part_num", "batch_size"]) := by
  refine ⟨rfl, by decide, rfl, by decide, ?_, by decide, by decide⟩
  intro d hd v hv
  have ht : ∀ e ∈ MiniReaderAttrDefs, e.default_typed = true := by decide
  have hdt := ht d hd
  simp only [AttrDecl.default_typed, hv, decide_eq_true_eq] at hdt
  exact hdt

/-! ## Further claims about tensor-descriptor inference -/

/-- C13: exact failure condition. For every batch size, worker count and partition on
"out", inference fails if and only if the partition is a Split, the worker count exceeds 1
and N mod worker_count is nonzero; in every other case (Broadcast or PartialReduce with an
indivisible N included) it succeeds with a descriptor. -/
theorem infer_fails_iff (ctx : InferContext) :
    ((∃ e : Error, TensorDescInferFn ctx = .error e) ↔
      ((∃ axis : Int,
          ctx.SbpParallel4ArgNameAndIndex "out" 0 = SbpParallel.split_parallel axis)
        ∧ 1 < ctx.parallel_num ∧ ctx.attrs.batch_size % ctx.parallel_num ≠ 0))
    ∧ ((∃ td : TensorDesc, TensorDescInferFn ctx = .ok td) ↔
      ¬ ((∃ axis : Int,
          ctx.SbpParallel4ArgNameAndIndex "out" 0 = SbpParallel.split_parallel axis)
        ∧ 1 < ctx.parallel_num ∧ ctx.attrs.batch_size % ctx.parallel_num ≠ 0)) := by
  have hsplit : (∃ axis : Int,
      ctx.SbpParallel4ArgNameAndIndex "out" 0 = SbpParallel.split_parallel axis)
      ↔ (ctx.SbpParallel4ArgNameAndIndex "out" 0).has_split_parallel = true := by
    cases ctx.SbpParallel4ArgNameAndIndex "out" 0 <;> simp [SbpParallel.has_split_parallel]
  rw [hsplit]
  rcases TensorDescInferFn_cases ctx with ⟨hs, hp, hm, he⟩ | ⟨hn, td, hok⟩
  · refine ⟨⟨fun _ => ⟨hs, hp, hm⟩, fun _ => ⟨_, he⟩⟩, ⟨fun ⟨td, h⟩ => ?_, fun h => ?_⟩⟩
    · rw [he] at h
      cases h
    · exact absurd ⟨hs, hp, hm⟩ h
  · refine ⟨⟨fun ⟨e, h⟩ => ?_, fun h => absurd h hn⟩, ⟨fun _ => hn, fun _ => ⟨td, hok⟩⟩⟩
    rw [hok] at h
    cases h

/-- C14: inference reads the partition of "out" only through whether it is a Split. For
every axis k, a context with Split(k) gives the same result as one with Split(0) and the
same batch size and worker count; with more than one worker and a 32-bit batch size N that
result is the check of N mod worker_count followed by the shape [N / worker_count, 2]:
dimension 0 is the one divided and the trailing 2 is untouched. -/
theorem infer_split_axis_irrelevant (c1 c2 : InferContext) (k : Int)
    (hb : c1.attrs.batch_size = c2.attrs.batch_size)
    (hp : c1.parallel_num = c2.parallel_num)
    (h1 : c1.SbpParallel4ArgNameAndIndex "out" 0 = SbpParallel.split_parallel k)
    (h2 : c2.SbpParallel4ArgNameAndIndex "out" 0 = SbpParallel.split_parallel 0)
    (hN : isInt32 c1.attrs.batch_size)
    (hpp : 1 < c1.parallel_num) :
    TensorDescInferFn c1 = TensorDescInferFn c2
    ∧ TensorDescInferFn c1
        = (if c1.attrs.batch_size % c1.parallel_num = 0
            then .ok ⟨[c1.attrs.batch_size / c1.parallel_num, 2], DataType.kDouble⟩
            else .error
              (.CheckFailedError (Int.tmod c1.attrs.batch_size c1.parallel_num) 0)) := by
  have hs1 : (c1.SbpParallel4ArgNameAndIndex "out" 0).has_split_parallel = true := by
    rw [h1]; rfl
  have hs2 : (c2.SbpParallel4ArgNameAndIndex "out" 0).has_split_parallel = true := by
    rw [h2]; rfl
  constructor
  · simp only [TensorDescInferFn, hb, hp, hs1, hs2]
  · by_cases hm : c1.attrs.batch_size % c1.parallel_num = 0
    · rw [if_pos hm]
      exact TensorDescInferFn_split_exact c1 hN hs1 hpp hm
    · rw [if_neg hm]
      exact TensorDescInferFn_split_error c1 hs1 hpp
        (fun h => hm ((tmod_eq_zero_iff_emod _ _).1 h))

theorem infer_split_axis_irrelevant_witness :
    isInt32 (exampleCtx 100 (SbpParallel.split_parallel 1) 4).attrs.batch_size
    ∧ 1 < (exampleCtx 100 (SbpParallel.split_parallel 1) 4).parallel_num
    ∧ TensorDescInferFn (exampleCtx 100 (SbpParallel.split_parallel 1) 4)
        = TensorDescInferFn (exampleCtx 100 (SbpParallel.split_parallel 0) 4)
    ∧ TensorDescInferFn (exampleCtx 100 (SbpParallel.split_parallel 1) 4)
        = .ok ⟨[25, 2], DataType.kDouble⟩ :=
  ⟨by decide, by decide,
   infer_split_axis_irrelevant (exampleCtx 100 (SbpParallel.split_parallel 1) 4)
     (exampleCtx 100 (SbpParallel.split_parallel 0) 4) 1 rfl rfl rfl rfl
     (by decide) (by decide)⟩

/-- C15: the mixed-width arithmetic is exact. For every 32-bit batch size N and 64-bit
worker count p > 1 with a Split partition on "out": the remainder and the quotient of N by
the full 64-bit p fit in 64 bits; inference returns [N / p, 2] when p divides N and the
error of the check, carrying that 64-bit remainder, when it does not; when the check
passes, the quotient stored back in the 32-bit variable is the mathematical quotient N / p
without wrap-around, with |N / p| at most |N|; and for p above 2^31 the remainder is N
itself, so inference succeeds only for N = 0 and fails for every other N. -/
theorem infer_mixed_width_exact (ctx : InferContext)
    (hN : isInt32 ctx.attrs.batch_size)
    (hp64 : isInt64 ctx.parallel_num)
    (hp : 1 < ctx.parallel_num)
    (hs : (ctx.SbpParallel4ArgNameAndIndex "out" 0).has_split_parallel = true) :
    isInt64 (Int.tmod ctx.attrs.batch_size ctx.parallel_num)
    ∧ isInt64 (Int.tdiv ctx.attrs.batch_size ctx.parallel_num)
    ∧ (Int.tmod ctx.attrs.batch_size ctx.parallel_num = 0 →
        wrapInt32 (Int.tdiv ctx.attrs.batch_size ctx.parallel_num)
            = ctx.attrs.batch_size / ctx.parallel_num
        ∧ ctx.attrs.batch_size / ctx.parallel_num * ctx.parallel_num
            = ctx.attrs.batch_size
        ∧ |ctx.attrs.batch_size / ctx.parallel_num| ≤ |ctx.attrs.batch_size|
        ∧ TensorDescInferFn ctx
            = .ok ⟨[ctx.attrs.batch_size / ctx.parallel_num, 2], DataType.kDouble⟩)
    ∧ (2147483648 < ctx.parallel_num →
        (Int.tmod ctx.attrs.batch_size ctx.parallel_num = 0
          ↔ ctx.attrs.batch_size = 0))
    ∧ TensorDescInferFn ctx
        = (if ctx.parallel_num ∣ ctx.attrs.batch_size
            then .ok ⟨[ctx.attrs.batch_size / ctx.parallel_num, 2], DataType.kDouble⟩
            else .error
              (.CheckFailedError (Int.tmod ctx.attrs.batch_size ctx.parallel_num) 0))
    ∧ (2147483648 < ctx.parallel_num →
        ((∃ td : TensorDesc, TensorDescInferFn ctx = .ok td) ↔ ctx.attrs.batch_size = 0)
        ∧ (ctx.attrs.batch_size = 0 →
            TensorDescInferFn ctx = .ok ⟨[0, 2], DataType.kDouble⟩)
        ∧ (ctx.attrs.batch_size ≠ 0 →
            TensorDescInferFn ctx
              = .error (.CheckFailedError ctx.attrs.batch_size 0))) := by
  have hq32 := isInt32_tdiv _ _ hN (show 1 ≤ ctx.parallel_num by omega)
  have hr := tmod_bounds ctx.attrs.batch_size ctx.parallel_num (by omega)
  have hok : Int.tmod ctx.attrs.batch_size ctx.parallel_num = 0 →
      TensorDescInferFn ctx
        = .ok ⟨[ctx.attrs.batch_size / ctx.parallel_num, 2], DataType.kDouble⟩ :=
    fun hm => TensorDescInferFn_split_exact ctx hN hs hp ((tmod_eq_zero_iff_emod _ _).1 hm)
  have hbig : 2147483648 < ctx.parallel_num →
      Int.tmod ctx.attrs.batch_size ctx.parallel_num = ctx.attrs.batch_size := by
    intro hb
    unfold isInt32 at hN
    exact tmod_eq_self_of_abs_lt _ _ (by omega) (by omega)
  refine ⟨?_, ?_, fun hm => ?_, fun hb => ?_, ?_, fun hb => ⟨⟨?_, ?_⟩, ?_, ?_⟩⟩
  · unfold isInt64 at *
    omega
  · unfold isInt32 at hq32
    unfold isInt64
    omega
  · have he := (tmod_eq_zero_iff_emod _ _).1 hm
    have hq := tdiv_eq_ediv_of_emod _ _ he
    refine ⟨?_, Int.ediv_mul_cancel (Int.dvd_of_emod_eq_zero he), ?_, hok hm⟩
    · rw [wrapInt32_of_isInt32 _ hq32, hq]
    · rw [← hq]
      exact tdiv_abs_le _ _ (by omega)
  · rw [hbig hb]
  · by_cases hd : ctx.parallel_num ∣ ctx.attrs.batch_size
    · rw [if_pos hd]
      exact hok (Int.tmod_eq_zero_of_dvd hd)
    · rw [if_neg hd]
      exact TensorDescInferFn_split_error ctx hs hp (fun hm => hd (Int.dvd_of_tmod_eq_zero hm))
  · rintro ⟨td, htd⟩
    by_contra hne
    rw [TensorDescInferFn_split_error ctx hs hp (by rw [hbig hb]; exact hne)] at htd
    cases htd
  · intro h0
    exact ⟨_, hok (by rw [hbig hb]; exact h0)⟩
  · intro h0
    have h := hok (by rw [hbig hb]; exact h0)
    rw [h0, Int.zero_ediv] at h
    exact h
  · intro hne
    have h := TensorDescInferFn_split_error ctx hs hp (by rw [hbig hb]; exact hne)
    rw [hbig hb] at h
    exact h

theorem infer_mixed_width_exact_witness :
    isInt32 (exampleCtx (-2147483648) (SbpParallel.split_parallel 0) 2147483648).attrs.batch_size
    ∧ isInt64 (exampleCtx (-2147483648) (SbpParallel.split_parallel 0) 2147483648).parallel_num
    ∧ TensorDescInferFn (exampleCtx (-2147483648) (SbpParallel.split_parallel 0) 2147483648)
        = .ok ⟨[-1, 2], DataType.kDouble⟩
    ∧ isInt32 (exampleCtx 100 (SbpParallel.split_parallel 0) 4294967300).attrs.batch_size
    ∧ isInt64 (exampleCtx 100 (SbpParallel.split_parallel 0) 4294967300).parallel_num
    ∧ 2147483648 < (exampleCtx 100 (SbpParallel.split_parallel 0) 4294967300).parallel_num
    ∧ TensorDescInferFn (exampleCtx 100 (SbpParallel.split_parallel 0) 4294967300)
        = .error (.CheckFailedError 100 0) :=
  ⟨by decide, by decide,
   ((infer_mixed_width_exact
      (exampleCtx (-2147483648) (SbpParallel.split_parallel 0) 2147483648)
      (by decide) (by decide) (by decide) rfl).2.2.1 (by decide)).2.2.2,
   by decide, by decide, by decide,
   ((infer_mixed_width_exact
      (exampleCtx 100 (SbpParallel.split_parallel 0) 4294967300)
      (by decide) (by decide) (by decide) rfl).2.2.2.2.2 (by decide)).2.2 (by decide)⟩

end oneflow
